import Mathlib

/-!
Verification of hurl's response-body decompression module
(`src/runner/content_decoding.rs`).

The module classifies the `Content-Encoding` header of an HTTP response and
dispatches the body bytes to the matching decompressor.  The decompression
algorithms themselves live in external crates (`brotli`, `libflate`); here
they are modelled as parameters (the `Codecs` structure), and the wrapper
logic of the module is embedded faithfully.
-/

namespace ContentDecoding

/-- Modelled from the spec: the HTTP version tag carried by the external
`http::Response` model.  The decoder never inspects it. -/
inductive Version where
  | Http10
  | Http11
deriving DecidableEq

/-- Modelled from the spec: a header pair of the external `http::Response`
model — name/value strings, names compared case-insensitively by consumers. -/
structure Header where
  name : String
  value : String
deriving DecidableEq

/-- Modelled from the spec: the external `http::Response` model — an ordered
sequence of headers and an owned byte buffer body (bytes as `Nat`). -/
structure Response where
  version : Version
  status : Nat
  headers : List Header
  body : List Nat
deriving DecidableEq

/-- The closed enumeration of recognized encodings (`Encoding` in the source). -/
inductive Encoding where
  | Brotli
  | Gzip
  | Deflate
  | Identity
deriving DecidableEq

/-- Modelled from the spec: the two `RunnerError` variants produced by this
module (`RunnerError` itself is defined in `runner/core.rs`, outside the
provided sources; the spec lists exactly these two error shapes for it). -/
inductive RunnerError where
  | UnsupportedContentEncoding (value : String)
  | CouldNotUncompressResponse (algorithm : String)
deriving DecidableEq

deriving instance DecidableEq for Except

/-- Modelled from the spec: the external codec collaborators.
`brotliRead data` is the outcome of the single `read` call issued on
`brotli::Decompressor::new(data, 4096)` with a 4096-byte buffer
(`none` = I/O error, `some chunk` = the bytes the read placed in the buffer).
`gzipNew` / `zlibNew` tell whether `libflate::gzip::Decoder::new` /
`libflate::zlib::Decoder::new` succeed on the data, and `gzipReadAll` /
`zlibReadAll` give the outcome of `read_to_end` on the constructed decoder. -/
structure Codecs where
  brotliRead : List Nat → Option (List Nat)
  gzipNew : List Nat → Bool
  gzipReadAll : List Nat → Option (List Nat)
  zlibNew : List Nat → Bool
  zlibReadAll : List Nat → Option (List Nat)

/-- ASCII lower-casing of one character (Rust `u8::to_ascii_lowercase`). -/
def asciiLowerChar (c : Char) : Char :=
  if 65 ≤ c.toNat ∧ c.toNat ≤ 90 then Char.ofNat (c.toNat + 32) else c

/-- ASCII lower-casing of a string (Rust `str::to_ascii_lowercase`). -/
def asciiLower (s : String) : String :=
  ⟨s.data.map asciiLowerChar⟩

/-- The value table of `content_encoding`: the case-sensitive match of the
header value against the four recognized literals. -/
def encodingOfValue (v : String) : Except RunnerError (Option Encoding) :=
  match v with
  | "br" => .ok (some .Brotli)
  | "gzip" => .ok (some .Gzip)
  | "deflate" => .ok (some .Deflate)
  | "identity" => .ok (some .Identity)
  | other => .error (.UnsupportedContentEncoding other)

/-- The header scan of `content_encoding`: the `for` loop with early
`return` over `self.headers`. -/
def contentEncodingLoop : List Header → Except RunnerError (Option Encoding)
  | [] => .ok none
  | h :: rest =>
    if asciiLower h.name = "content-encoding" then encodingOfValue h.value
    else contentEncodingLoop rest

/-- `Response::content_encoding` from the source. -/
def Response.content_encoding (r : Response) : Except RunnerError (Option Encoding) :=
  contentEncodingLoop r.headers

/-- `uncompress_brotli` from the source: one `read` into a 4096-byte buffer
(so at most 4096 bytes are kept), I/O errors mapped to
`CouldNotUncompressResponse "brotli"`. -/
def uncompress_brotli (c : Codecs) (data : List Nat) : Except RunnerError (List Nat) :=
  match c.brotliRead data with
  | none => .error (.CouldNotUncompressResponse "brotli")
  | some chunk => .ok (chunk.take 4096)

/-- `uncompress_gzip` from the source: decoder construction then
`read_to_end`, each failure mapped to `CouldNotUncompressResponse "gzip"`. -/
def uncompress_gzip (c : Codecs) (data : List Nat) : Except RunnerError (List Nat) :=
  if c.gzipNew data then
    match c.gzipReadAll data with
    | some buf => .ok buf
    | none => .error (.CouldNotUncompressResponse "gzip")
  else .error (.CouldNotUncompressResponse "gzip")

/-- `uncompress_zlib` from the source: decoder construction then
`read_to_end`, each failure mapped to `CouldNotUncompressResponse "zlib"`. -/
def uncompress_zlib (c : Codecs) (data : List Nat) : Except RunnerError (List Nat) :=
  if c.zlibNew data then
    match c.zlibReadAll data with
    | some buf => .ok buf
    | none => .error (.CouldNotUncompressResponse "zlib")
  else .error (.CouldNotUncompressResponse "zlib")

/-- `Response::uncompress_body` from the source: resolve the encoding (the
`?` propagates its error) and dispatch on it. -/
def Response.uncompress_body (c : Codecs) (r : Response) : Except RunnerError (List Nat) :=
  match r.content_encoding with
  | .error e => .error e
  | .ok encoding =>
    match encoding with
    | some .Identity => .ok r.body
    | some .Gzip => uncompress_gzip c r.body
    | some .Deflate => uncompress_zlib c r.body
    | some .Brotli => uncompress_brotli c r.body
    | none => .ok r.body

/-- The bytes of `"Hello World!"`. -/
def helloWorldBytes : List Nat :=
  [0x48, 0x65, 0x6c, 0x6c, 0x6f, 0x20, 0x57, 0x6f, 0x72, 0x6c, 0x64, 0x21]

/-- The brotli-compressed bytes of `"Hello World!"` (the module's test vector). -/
def brotliHello : List Nat :=
  [0x21, 0x2c, 0x00, 0x04, 0x48, 0x65, 0x6c, 0x6c, 0x6f, 0x20, 0x57, 0x6f, 0x72, 0x6c,
   0x64, 0x21]

/-- The gzip-compressed bytes of `"Hello World!"` (the module's test vector). -/
def gzipHello : List Nat :=
  [0x1f, 0x8b, 0x08, 0x08, 0xa7, 0x52, 0x85, 0x5f, 0x00, 0x03, 0x64, 0x61, 0x74, 0x61,
   0x2e, 0x74, 0x78, 0x74, 0x00, 0xf3, 0x48, 0xcd, 0xc9, 0xc9, 0x57, 0x08, 0xcf, 0x2f,
   0xca, 0x49, 0x51, 0x04, 0x00, 0xa3, 0x1c, 0x29, 0x1c, 0x0c, 0x00, 0x00, 0x00]

/-- The zlib-compressed bytes of `"Hello World!"` (the module's test vector). -/
def zlibHello : List Nat :=
  [0x78, 0x9c, 0xf3, 0x48, 0xcd, 0xc9, 0xc9, 0x57, 0x08, 0xcf, 0x2f, 0xca, 0x49, 0x51,
   0x04, 0x00, 0x1c, 0x49, 0x04, 0x3e]

/-- A codec assignment on which every external call fails; used to
instantiate hypotheses about codec failure. -/
def failingCodecs : Codecs :=
  ⟨fun _ => none, fun _ => false, fun _ => none, fun _ => false, fun _ => none⟩

/-- The specification's reading of the classifier: find the first header
whose lower-cased name is `"content-encoding"` and match its value against
the four literals; succeed with no encoding when none exists. -/
def content_encoding_spec (r : Response) : Except RunnerError (Option Encoding) :=
  match r.headers.find? (fun h => asciiLower h.name = "content-encoding") with
  | none => .ok none
  | some h => encodingOfValue h.value

/-- The early-return scan agrees with `List.find?` on the lower-cased name. -/
theorem contentEncodingLoop_eq_find (l : List Header) :
    contentEncodingLoop l =
      match l.find? (fun h => asciiLower h.name = "content-encoding") with
      | none => Except.ok none
      | some h => encodingOfValue h.value := by
  induction l with
  | nil => rfl
  | cons h rest ih =>
    by_cases hc : asciiLower h.name = "content-encoding"
    · simp [contentEncodingLoop, List.find?_cons, hc]
    · simp [contentEncodingLoop, List.find?_cons, hc, ih]

/-- C1: `content_encoding` scans for the first header whose name equals
`"content-encoding"` case-insensitively and maps its value through the
four-literal, case-sensitive table (`content_encoding_spec`), succeeding with
no encoding when no such header exists; any value outside the four literals
fails with `UnsupportedContentEncoding` carrying that exact string. -/
theorem content_encoding_matches_spec :
    (∀ r : Response, r.content_encoding = content_encoding_spec r)
    ∧ ∀ v : String, v ≠ "br" → v ≠ "gzip" → v ≠ "deflate" → v ≠ "identity" →
        encodingOfValue v = .error (.UnsupportedContentEncoding v) := by
  constructor
  · intro r
    unfold Response.content_encoding content_encoding_spec
    exact contentEncodingLoop_eq_find r.headers
  · intro v h1 h2 h3 h4
    unfold encodingOfValue
    split <;> simp_all

/-- Witness for C1 at a mixed-case header name and the rejected value `"BR"`. -/
theorem content_encoding_matches_spec_witness :
    (Response.mk .Http10 200 [⟨"content-ENCODING", "br"⟩] []).content_encoding
        = content_encoding_spec (Response.mk .Http10 200 [⟨"content-ENCODING", "br"⟩] [])
    ∧ encodingOfValue "BR" = .error (.UnsupportedContentEncoding "BR") :=
  ⟨content_encoding_matches_spec.1 _,
   content_encoding_matches_spec.2 "BR" (by decide) (by decide) (by decide) (by decide)⟩

/-- C6: with several `content-encoding` headers (case-insensitive name
match), the first one in header order alone determines the outcome — the
result is its value's table entry, whatever headers follow. -/
theorem content_encoding_first_match (v : Version) (s : Nat) (body : List Nat)
    (l1 l2 : List Header) (h : Header)
    (hl1 : ∀ h2 ∈ l1, asciiLower h2.name ≠ "content-encoding")
    (hh : asciiLower h.name = "content-encoding") :
    (Response.mk v s (l1 ++ h :: l2) body).content_encoding = encodingOfValue h.value := by
  unfold Response.content_encoding
  induction l1 with
  | nil => simp [contentEncodingLoop, hh]
  | cons a rest ih =>
    have ha : asciiLower a.name ≠ "content-encoding" := hl1 a (by simp)
    simp only [List.cons_append, contentEncodingLoop, if_neg ha]
    exact ih (fun h2 hm => hl1 h2 (by simp [hm]))

/-- Witness for C6: the first `Content-Encoding` header (value `"gzip"`)
wins over a later one (value `"br"`). -/
theorem content_encoding_first_match_witness :
    (Response.mk .Http10 200
        ([⟨"Content-Type", "text/html"⟩] ++
          (⟨"Content-Encoding", "gzip"⟩ : Header) :: [⟨"content-encoding", "br"⟩]) []).content_encoding
      = encodingOfValue "gzip" :=
  content_encoding_first_match .Http10 200 [] [⟨"Content-Type", "text/html"⟩]
    [⟨"content-encoding", "br"⟩] ⟨"Content-Encoding", "gzip"⟩ (by decide) (by decide)

/-- C9: the classifier applies no HTTP list splitting or whitespace trimming
to the header value — a comma-separated list of recognized codings, or a
recognized coding with surrounding whitespace, is rejected with
`UnsupportedContentEncoding` carrying the entire raw string verbatim. -/
theorem content_encoding_rejects_list_values :
    (Response.mk .Http10 200 [⟨"Content-Encoding", "gzip, br"⟩] []).content_encoding
        = .error (.UnsupportedContentEncoding "gzip, br")
    ∧ (Response.mk .Http10 200 [⟨"Content-Encoding", " gzip"⟩] []).content_encoding
        = .error (.UnsupportedContentEncoding " gzip") := by
  decide

/-- C4: with the `Content-Encoding` header absent, or the first such header
valued `"identity"`, `uncompress_body` returns the body unchanged for every
body, under every codec assignment — the passthrough never fails. -/
theorem uncompress_body_identity_passthrough (c : Codecs) (r : Response)
    (h : r.content_encoding = .ok none ∨ r.content_encoding = .ok (some .Identity)) :
    r.uncompress_body c = .ok r.body := by
  unfold Response.uncompress_body
  rcases h with h | h <;> rw [h]

/-- Witness for C4 at an identity-tagged response with a non-empty body. -/
theorem uncompress_body_identity_passthrough_witness :
    (Response.mk .Http10 200 [⟨"Content-Encoding", "identity"⟩] [7, 8, 9]).uncompress_body
        failingCodecs = .ok [7, 8, 9] :=
  uncompress_body_identity_passthrough failingCodecs _ (Or.inr (by decide))

/-- C7: decoding is deterministic — two responses with identical header
sequences and identical bodies decode to identical results under the same
codec assignment. -/
theorem uncompress_body_deterministic (c : Codecs) (r1 r2 : Response)
    (hh : r1.headers = r2.headers) (hb : r1.body = r2.body) :
    r1.uncompress_body c = r2.uncompress_body c := by
  unfold Response.uncompress_body Response.content_encoding
  rw [hh, hb]

/-- Witness for C7 at two responses differing only in version and status. -/
theorem uncompress_body_deterministic_witness :
    (Response.mk .Http10 200 [] [1]).uncompress_body failingCodecs
      = (Response.mk .Http11 404 [] [1]).uncompress_body failingCodecs :=
  uncompress_body_deterministic failingCodecs _ _ rfl rfl

/-- C8: `uncompress_body` is total over its interface — for every response
and codec assignment it yields either decoded bytes or one of the two typed
errors; every codec failure branch becomes an error value. -/
theorem uncompress_body_returns_typed_result (c : Codecs) (r : Response) :
    (∃ bs, r.uncompress_body c = .ok bs)
    ∨ (∃ v, r.uncompress_body c = .error (.UnsupportedContentEncoding v))
    ∨ (∃ a, r.uncompress_body c = .error (.CouldNotUncompressResponse a)) := by
  cases hce : r.content_encoding with
  | error e =>
    cases e with
    | UnsupportedContentEncoding v =>
      exact Or.inr (Or.inl ⟨v, by simp [Response.uncompress_body, hce]⟩)
    | CouldNotUncompressResponse a =>
      exact Or.inr (Or.inr ⟨a, by simp [Response.uncompress_body, hce]⟩)
  | ok enc =>
    cases enc with
    | none => exact Or.inl ⟨r.body, by simp [Response.uncompress_body, hce]⟩
    | some e2 =>
      cases e2 with
      | Identity => exact Or.inl ⟨r.body, by simp [Response.uncompress_body, hce]⟩
      | Brotli =>
        cases hr : c.brotliRead r.body with
        | some chunk =>
          exact Or.inl ⟨chunk.take 4096,
            by simp [Response.uncompress_body, hce, uncompress_brotli, hr]⟩
        | none =>
          exact Or.inr (Or.inr ⟨"brotli",
            by simp [Response.uncompress_body, hce, uncompress_brotli, hr]⟩)
      | Gzip =>
        by_cases hg : c.gzipNew r.body = true
        · cases hr : c.gzipReadAll r.body with
          | some buf =>
            exact Or.inl ⟨buf,
              by simp [Response.uncompress_body, hce, uncompress_gzip, hg, hr]⟩
          | none =>
            exact Or.inr (Or.inr ⟨"gzip",
              by simp [Response.uncompress_body, hce, uncompress_gzip, hg, hr]⟩)
        · exact Or.inr (Or.inr ⟨"gzip",
            by simp [Response.uncompress_body, hce, uncompress_gzip, hg]⟩)
      | Deflate =>
        by_cases hz : c.zlibNew r.body = true
        · cases hr : c.zlibReadAll r.body with
          | some buf =>
            exact Or.inl ⟨buf,
              by simp [Response.uncompress_body, hce, uncompress_zlib, hz, hr]⟩
          | none =>
            exact Or.inr (Or.inr ⟨"zlib",
              by simp [Response.uncompress_body, hce, uncompress_zlib, hz, hr]⟩)
        · exact Or.inr (Or.inr ⟨"zlib",
            by simp [Response.uncompress_body, hce, uncompress_zlib, hz]⟩)

/-- C2: `uncompress_brotli` performs one read into a 4096-byte buffer, so
every successful result has length at most 4096; and when that single read
yields the decompressed form of the brotli stream for `"Hello World!"`, the
result is exactly those bytes. -/
theorem uncompress_brotli_single_read (c : Codecs) :
    (∀ data out : List Nat, uncompress_brotli c data = .ok out → out.length ≤ 4096)
    ∧ (c.brotliRead brotliHello = some helloWorldBytes →
        uncompress_brotli c brotliHello = .ok helloWorldBytes) := by
  constructor
  · intro data out h
    unfold uncompress_brotli at h
    cases hr : c.brotliRead data with
    | none => rw [hr] at h; cases h
    | some chunk =>
      rw [hr] at h
      cases h
      simp [List.length_take]
  · intro hr
    unfold uncompress_brotli
    rw [hr]
    rfl

/-- Witness for C2: a codec whose single bounded read yields
`"Hello World!"` decodes the module's brotli test vector to those bytes,
which fit the 4096-byte bound. -/
theorem uncompress_brotli_single_read_witness :
    uncompress_brotli ⟨fun _ => some helloWorldBytes, fun _ => false, fun _ => none,
        fun _ => false, fun _ => none⟩ brotliHello = .ok helloWorldBytes
    ∧ helloWorldBytes.length ≤ 4096 :=
  ⟨(uncompress_brotli_single_read _).2 rfl,
   (uncompress_brotli_single_read ⟨fun _ => some helloWorldBytes, fun _ => false,
      fun _ => none, fun _ => false, fun _ => none⟩).1 brotliHello helloWorldBytes
     ((uncompress_brotli_single_read _).2 rfl)⟩

/-- C5: `uncompress_gzip` and `uncompress_zlib` return the full buffer
produced by reading the constructed decoder to end-of-stream, with no size
cap — whatever bytes `read_to_end` yields are returned verbatim. -/
theorem uncompress_gzip_zlib_read_to_end :
    (∀ (c : Codecs) (data buf : List Nat),
        c.gzipNew data = true → c.gzipReadAll data = some buf →
        uncompress_gzip c data = .ok buf)
    ∧ ∀ (c : Codecs) (data buf : List Nat),
        c.zlibNew data = true → c.zlibReadAll data = some buf →
        uncompress_zlib c data = .ok buf := by
  constructor
  · intro c data buf h1 h2
    simp [uncompress_gzip, h1, h2]
  · intro c data buf h1 h2
    simp [uncompress_zlib, h1, h2]

/-- Witness for C5: codecs decoding the module's gzip and zlib test vectors
for `"Hello World!"` make the wrappers return exactly those bytes. -/
theorem uncompress_gzip_zlib_read_to_end_witness :
    uncompress_gzip ⟨fun _ => none, fun _ => true, fun _ => some helloWorldBytes,
        fun _ => true, fun _ => some helloWorldBytes⟩ gzipHello = .ok helloWorldBytes
    ∧ uncompress_zlib ⟨fun _ => none, fun _ => true, fun _ => some helloWorldBytes,
        fun _ => true, fun _ => some helloWorldBytes⟩ zlibHello = .ok helloWorldBytes :=
  ⟨uncompress_gzip_zlib_read_to_end.1 _ gzipHello helloWorldBytes rfl rfl,
   uncompress_gzip_zlib_read_to_end.2 _ zlibHello helloWorldBytes rfl rfl⟩

/-- The value table errors only with `UnsupportedContentEncoding`. -/
theorem encodingOfValue_error (v : String) (e : RunnerError)
    (h : encodingOfValue v = .error e) : ∃ w, e = .UnsupportedContentEncoding w := by
  unfold encodingOfValue at h
  split at h <;> cases h
  exact ⟨_, rfl⟩

/-- The classifier errors only with `UnsupportedContentEncoding`. -/
theorem contentEncodingLoop_error (l : List Header) (e : RunnerError)
    (h : contentEncodingLoop l = .error e) : ∃ w, e = .UnsupportedContentEncoding w := by
  induction l with
  | nil => cases h
  | cons a rest ih =>
    unfold contentEncodingLoop at h
    by_cases hc : asciiLower a.name = "content-encoding"
    · rw [if_pos hc] at h
      exact encodingOfValue_error a.value e h
    · rw [if_neg hc] at h
      exact ih h

/-- C3: every failure of `uncompress_body` is either the classification
error, propagated unchanged (always an `UnsupportedContentEncoding` carrying
the raw value), or `CouldNotUncompressResponse` tagged `"brotli"`, `"gzip"`
or `"zlib"`; in particular the Deflate branch reports `"zlib"` when zlib
decoder construction fails. -/
theorem uncompress_body_error_taxonomy :
    (∀ (c : Codecs) (r : Response) (e : RunnerError),
        r.uncompress_body c = .error e →
        (r.content_encoding = .error e ∧ ∃ v, e = .UnsupportedContentEncoding v)
        ∨ e = .CouldNotUncompressResponse "brotli"
        ∨ e = .CouldNotUncompressResponse "gzip"
        ∨ e = .CouldNotUncompressResponse "zlib")
    ∧ ∀ (c : Codecs) (r : Response),
        r.content_encoding = .ok (some .Deflate) →
        c.zlibNew r.body = false →
        r.uncompress_body c = .error (.CouldNotUncompressResponse "zlib") := by
  constructor
  · intro c r e he
    cases hce : r.content_encoding with
    | error e2 =>
      simp [Response.uncompress_body, hce] at he
      subst he
      exact Or.inl ⟨rfl, contentEncodingLoop_error r.headers e2 hce⟩
    | ok enc =>
      cases enc with
      | none => simp [Response.uncompress_body, hce] at he
      | some e2 =>
        cases e2 with
        | Identity => simp [Response.uncompress_body, hce] at he
        | Brotli =>
          right; left
          simp only [Response.uncompress_body, hce] at he
          unfold uncompress_brotli at he
          cases hr : c.brotliRead r.body <;> rw [hr] at he <;> cases he
          rfl
        | Gzip =>
          right; right; left
          simp only [Response.uncompress_body, hce] at he
          unfold uncompress_gzip at he
          by_cases hg : c.gzipNew r.body = true
          · rw [if_pos hg] at he
            cases hr : c.gzipReadAll r.body <;> rw [hr] at he <;> cases he
            rfl
          · rw [if_neg hg] at he
            cases he
            rfl
        | Deflate =>
          right; right; right
          simp only [Response.uncompress_body, hce] at he
          unfold uncompress_zlib at he
          by_cases hz : c.zlibNew r.body = true
          · rw [if_pos hz] at he
            cases hr : c.zlibReadAll r.body <;> rw [hr] at he <;> cases he
            rfl
          · rw [if_neg hz] at he
            cases he
            rfl
  · intro c r hce hz
    simp [Response.uncompress_body, hce, uncompress_zlib, hz]

/-- Witness for C3: the unsupported value `"xx"` propagates unchanged, and a
deflate-tagged body whose zlib decoder cannot be constructed reports
`"zlib"`. -/
theorem uncompress_body_error_taxonomy_witness :
    (((Response.mk .Http10 200 [⟨"Content-Encoding", "xx"⟩] []).content_encoding
          = .error (.UnsupportedContentEncoding "xx")
        ∧ ∃ v, RunnerError.UnsupportedContentEncoding "xx" = .UnsupportedContentEncoding v)
      ∨ RunnerError.UnsupportedContentEncoding "xx" = .CouldNotUncompressResponse "brotli"
      ∨ RunnerError.UnsupportedContentEncoding "xx" = .CouldNotUncompressResponse "gzip"
      ∨ RunnerError.UnsupportedContentEncoding "xx" = .CouldNotUncompressResponse "zlib")
    ∧ (Response.mk .Http10 200 [⟨"Content-Encoding", "deflate"⟩] [1]).uncompress_body
        failingCodecs = .error (.CouldNotUncompressResponse "zlib") :=
  ⟨uncompress_body_error_taxonomy.1 failingCodecs _ _ (by decide),
   uncompress_body_error_taxonomy.2 failingCodecs _ (by decide) rfl⟩

/-- C10: an empty body tagged `"gzip"` or `"deflate"` does not decode to an
empty output: with decoder construction failing on the empty byte sequence,
`uncompress_body` reports `CouldNotUncompressResponse "gzip"` /
`CouldNotUncompressResponse "zlib"`. -/
theorem uncompress_body_empty_gzip_deflate_fail (c : Codecs) (v : Version) (s : Nat)
    (hg : c.gzipNew [] = false) (hz : c.zlibNew [] = false) :
    (Response.mk v s [⟨"Content-Encoding", "gzip"⟩] []).uncompress_body c
        = .error (.CouldNotUncompressResponse "gzip")
    ∧ (Response.mk v s [⟨"Content-Encoding", "deflate"⟩] []).uncompress_body c
        = .error (.CouldNotUncompressResponse "zlib") := by
  constructor
  · show uncompress_gzip c [] = _
    simp [uncompress_gzip, hg]
  · show uncompress_zlib c [] = _
    simp [uncompress_zlib, hz]

/-- Witness for C10 with a codec assignment failing on every input. -/
theorem uncompress_body_empty_gzip_deflate_fail_witness :
    (Response.mk .Http10 200 [⟨"Content-Encoding", "gzip"⟩] []).uncompress_body failingCodecs
        = .error (.CouldNotUncompressResponse "gzip")
    ∧ (Response.mk .Http10 200 [⟨"Content-Encoding", "deflate"⟩] []).uncompress_body
        failingCodecs = .error (.CouldNotUncompressResponse "zlib") :=
  uncompress_body_empty_gzip_deflate_fail failingCodecs .Http10 200 rfl rfl

end ContentDecoding
